import Mathlib

/-!
Shallow embedding of the directory-access layer of the DCSync tool
(`DCSync/network/LDAP.py` and `DCSync/structures/Target.py`).

The network is modelled as explicit oracles: a transport oracle mapping each
probe candidate (TLS version + port, or plaintext + port) to the outcome of
the anonymous bind attempt, a bind oracle mapping the selected authentication
mechanism to the outcome of the authenticated bind, and a server function
mapping each search request to one page of response entries.  Process exits
(`exit(1)`) and uncaught Python exceptions are modelled as explicit outcome
constructors.  Python truthiness of optional ports and cookies is embedded
explicitly.
-/

namespace DCSync

/-- Python truthiness of an optional integer: `None` and `0` are falsy. -/
def optNatTruthy : Option Nat → Bool
  | none => false
  | some n => n != 0

/-- Python `port or default` on an optional integer. -/
def pyOr (port : Option Nat) (dflt : Nat) : Nat :=
  match port with
  | none => dflt
  | some n => if n = 0 then dflt else n

/-- The two TLS protocol versions probed by negotiation
(`tls.PROTOCOL_TLSv1_2` and `tls.PROTOCOL_TLSv1`). -/
inductive TlsProto
  | v1_2
  | v1
deriving DecidableEq, Repr

/-- One transport probe candidate: a TLS handshake+anonymous bind on a port,
or a plaintext anonymous bind on a port. -/
inductive Candidate
  | tls (proto : TlsProto) (port : Nat)
  | plain (port : Nat)
deriving DecidableEq, Repr

/-- Outcome of an anonymous bind attempt, as distinguished by the exception
handlers in `LDAP.__tryLDAPS` / `LDAP.__tryLDAP`: the bind returned normally,
the socket could not be opened (`LDAPSocketOpenError`), or the response could
not be read after the connection was established (`LDAPSocketReceiveError`). -/
inductive BindOutcome
  | ok
  | socketOpenError
  | socketReceiveError
deriving DecidableEq, Repr

/-- Embeds `DCSync/structures/Target.py`: remote host, caller port, mutable working
port, and the tri-state TLS flags (class attributes initialised to `None`,
only ever set to `True` by negotiation). -/
structure Target where
  remote : String
  port : Option Nat
  method_port : Option Nat
  tlsv1_2 : Option Bool := none
  tlsv1 : Option Bool := none
deriving DecidableEq, Repr

/-- Embeds `Target.use_tls`: `self.tlsv1_2 or self.tlsv1`, read for truthiness. -/
def Target.use_tls (t : Target) : Bool :=
  t.tlsv1_2 = some true || t.tlsv1 = some true

/-- Embeds `LDAP.__tryLDAPS(proto, port)`: defaults the port to 636, attempts an
anonymous bind over TLS; `LDAPSocketOpenError` yields `(None, None)`,
`LDAPSocketReceiveError` is swallowed, and otherwise `(port, True)` is
returned.  Also returns the candidate probed, for the negotiation trace. -/
def tryLDAPS (net : Candidate → BindOutcome) (proto : TlsProto)
    (port : Option Nat) : (Option Nat × Option Bool) × Candidate :=
  let p := pyOr port 636
  let cand := Candidate.tls proto p
  (match net cand with
   | .socketOpenError => (none, none)
   | .socketReceiveError => (some p, some true)
   | .ok => (some p, some true),
   cand)

/-- Embeds `LDAP.__tryLDAP(port)`: defaults the port to 389, attempts a plaintext
anonymous bind; `LDAPSocketOpenError` yields `None`,
`LDAPSocketReceiveError` yields the port, and normal completion yields the
port.  Also returns the candidate probed, for the negotiation trace. -/
def tryLDAP (net : Candidate → BindOutcome) (port : Option Nat) :
    Option Nat × Candidate :=
  let p := pyOr port 389
  let cand := Candidate.plain p
  (match net cand with
   | .socketOpenError => none
   | .socketReceiveError => some p
   | .ok => some p,
   cand)

/-- Embeds `LDAP.__getPort`: skipped when the target already carries a truthy port;
otherwise probes TLS1.2, then (if that flag stayed `None`) TLS1.1, then (if
that flag also stayed `None`) plaintext, threading the mutated
`target.method_port` through; a final `None` port is a fatal exit
(`TransportUnavailable`), modelled as `none`.  The second component is the
ordered list of candidates actually probed. -/
def getPort (net : Candidate → BindOutcome) (t : Target) :
    Option Target × List Candidate :=
  if optNatTruthy t.method_port then
    (some t, [])
  else
    let r1 := tryLDAPS net .v1_2 t.method_port
    let t1 : Target := { t with method_port := r1.1.1, tlsv1_2 := r1.1.2 }
    if t1.tlsv1_2 = none then
      let r2 := tryLDAPS net .v1 t1.method_port
      let t2 : Target := { t1 with method_port := r2.1.1, tlsv1 := r2.1.2 }
      if t2.tlsv1 = none then
        let r3 := tryLDAP net t2.method_port
        let t3 : Target := { t2 with method_port := r3.1 }
        (if t3.method_port = none then none else some t3, [r1.2, r2.2, r3.2])
      else
        (if t2.method_port = none then none else some t2, [r1.2, r2.2])
    else
      (if t1.method_port = none then none else some t1, [r1.2])

/-- The three mutually exclusive authentication mechanisms dispatched on in
`LDAP.__Authentication`. -/
inductive Mechanism
  | kerberos
  | simpleBind
  | ntlm
deriving DecidableEq, Repr

/-- Embeds the mechanism selectors of `DCSync/structures/Credentials`
consumed by `LDAP.__Authentication`: domain, username, and the two mode
flags (`doKerberos` takes precedence over `doSimpleBind`; NTLM is the
default). -/
structure Credentials where
  domain : String
  username : String
  doKerberos : Bool
  doSimpleBind : Bool
deriving DecidableEq, Repr

/-- The `if doKerberos / elif doSimpleBind / else` dispatch of
`LDAP.__Authentication`. -/
def selectedMechanism (c : Credentials) : Mechanism :=
  if c.doKerberos then .kerberos
  else if c.doSimpleBind then .simpleBind
  else .ntlm

/-- Exceptions an authenticated bind can raise, as distinguished by the
handler in the NTLM branch (`except ldap3.core.exceptions.LDAPSocketReceiveError`);
every other exception class is uncaught there. -/
inductive BindExc
  | socketReceiveError
  | socketOpenError
  | otherException
deriving DecidableEq, Repr

/-- The bind result inspected after a completed bind: the protocol result
code (`response[0]["result"]` in the Kerberos SASL path) and the result
description string (`ldapConn.result["description"]`). -/
structure BindResult where
  resultCode : Nat
  description : String
deriving DecidableEq, Repr

/-- Environment oracle for authenticated binds: what the network does when
`LDAP.__Authentication` binds with a given mechanism. -/
structure AuthEnv where
  bind : Mechanism → Except BindExc BindResult

/-- Outcome of `LDAP.__Authentication`: a bound connection is returned, or
the process exits fatally (invalid credentials at line 77-79, NTLM socket
rejection at line 73-75), or an exception escapes the method uncaught
(including the `raise Exception(response)` of the Kerberos path). -/
inductive AuthOutcome
  | bound (result : BindResult)
  | fatalInvalidCredentials
  | fatalMechanismRejected
  | kerberosBindFailure (response : BindResult)
  | uncaughtExc (e : BindExc)
deriving DecidableEq, Repr

/-- Error message printed before the invalid-credentials `exit(1)`. -/
def invalidCredentialsMessage : String := "Invalid credentials !"

/-- Error message printed before the NTLM-rejection `exit(1)`. -/
def mechanismRejectedMessage : String :=
  "Can't connect using NTLM, try with -simple-bind option"

/-- Message emitted by a fatal authentication outcome, if any. -/
def fatalMessage : AuthOutcome → Option String
  | .fatalInvalidCredentials => some invalidCredentialsMessage
  | .fatalMechanismRejected => some mechanismRejectedMessage
  | _ => none

/-- Embeds `LDAP.__Authentication`: dispatches on the selected mechanism,
binds, and then (for any mechanism whose bind completed) checks
`ldapConn.result["description"] == "invalidCredentials"`, exiting fatally on
a match.  Only the NTLM branch wraps its bind in a handler, and only for
`LDAPSocketReceiveError`; the Kerberos path raises on a non-zero SASL result
code before the description check. -/
def Authentication (env : AuthEnv) (c : Credentials) : AuthOutcome :=
  let checked : BindResult → AuthOutcome := fun r =>
    if r.description = "invalidCredentials" then .fatalInvalidCredentials
    else .bound r
  match selectedMechanism c with
  | .kerberos =>
    match env.bind .kerberos with
    | .error e => .uncaughtExc e
    | .ok r => if r.resultCode ≠ 0 then .kerberosBindFailure r else checked r
  | .simpleBind =>
    match env.bind .simpleBind with
    | .error e => .uncaughtExc e
    | .ok r => checked r
  | .ntlm =>
    match env.bind .ntlm with
    | .error .socketReceiveError => .fatalMechanismRejected
    | .error e => .uncaughtExc e
    | .ok r => checked r

/-- Search scope constants (`ldap3.BASE`, `ldap3.SUBTREE`). -/
inductive Scope
  | base
  | subtree
deriving DecidableEq, Repr

/-- Raw continuation-cookie bytes. -/
abbrev Cookie := List Nat

/-- OID of the security-descriptor control attached to every search. -/
def sdControlOid : String := "1.2.840.113556.1.4.801"

/-- Value bytes of the security-descriptor control:
Python builds the string via character codes 48, 3, 2, 1, 7 (the ASN.1
SEQUENCE wrapping INTEGER 7 = OWNER + GROUP + DACL). -/
def sdControlValue : List Nat := [48, 3, 2, 1, 7]

/-- An LDAP request control: OID, criticality, value bytes. -/
structure Control where
  oid : String
  criticality : Bool
  value : List Nat
deriving DecidableEq, Repr

/-- The fixed control tuple passed in `controls=[...]` by `LDAP.search`. -/
def sdControl : Control := ⟨sdControlOid, true, sdControlValue⟩

/-- One raw protocol response element: its marker type (for example
"searchResEntry"), raw byte-valued attributes, and decoded attributes. -/
structure LdapEntry where
  type : String
  raw_attributes : List (String × List (List Nat))
  attributes : List (String × List String)
deriving DecidableEq, Repr

/-- The argument record of one `ldapConn.search(...)` call issued by
`LDAP.search`. -/
structure SearchRequest where
  search_base : String
  search_filter : String
  search_scope : Scope
  attributes : List String
  controls : List Control
  paged_size : Nat
  paged_cookie : Option Cookie
deriving DecidableEq, Repr

/-- One round trip's server answer: the response entry list and, when the
result carries a paged-results control (`1.2.840.113556.1.4.319`), that
control's cookie bytes (`none` models a result with no controls, in which
case `LDAP.search` sets the cookie to `None`). -/
structure PageResponse where
  response : List LdapEntry
  pagedCookie : Option Cookie
deriving DecidableEq, Repr

/-- Python truthiness of the extracted cookie: `None` and empty bytes are
falsy, so either stops the recursion. -/
def cookieTruthy : Option Cookie → Bool
  | none => false
  | some c => c != []

/-- Observable events of a search run: one fresh authentication
(`self.__Authentication()`) or one issued search request. -/
inductive Ev
  | auth
  | searchReq (r : SearchRequest)
deriving DecidableEq, Repr

/-- Whether an event is an issued search request. -/
def Ev.isSearchReq : Ev → Bool
  | .auth => false
  | .searchReq _ => true

/-- Embeds `LDAP.search(dn, filter, scope, attributes, cookie)`: authenticate
afresh, issue one search request with page size 5000, the fixed
security-descriptor control and the supplied cookie, extract the new cookie
from the paged-results control of the result, and if it is truthy recurse
with the same base/filter/scope/attributes, extending the entry list with
the continuation's entries.  The `fuel` parameter bounds Python's call
stack; exhaustion, a fatal exit inside authentication, or an uncaught
exception yield `none`.  The second component is the ordered event trace. -/
def search (env : AuthEnv) (c : Credentials) (server : SearchRequest → PageResponse)
    (fuel : Nat) (dn : String) (filter : String) (scope : Scope)
    (attributes : List String) (cookie : Option Cookie) :
    Option (List LdapEntry) × List Ev :=
  match fuel with
  | 0 => (none, [])
  | fuel + 1 =>
    match Authentication env c with
    | .bound _ =>
      let req : SearchRequest :=
        { search_base := dn, search_filter := filter, search_scope := scope,
          attributes := attributes, controls := [sdControl],
          paged_size := 5000, paged_cookie := cookie }
      let resp := server req
      let newCookie := resp.pagedCookie
      if cookieTruthy newCookie then
        match search env c server fuel dn filter scope attributes newCookie with
        | (some rest, evs) => (some (resp.response ++ rest), .auth :: .searchReq req :: evs)
        | (none, evs) => (none, .auth :: .searchReq req :: evs)
      else
        (some resp.response, [.auth, .searchReq req])
    | _ => (none, [.auth])

/-- Python dictionary lookup on an association list (`d[key]` succeeds iff
the key is present). -/
def pyDictGet {α : Type} : List (String × α) → String → Option α
  | [], _ => none
  | (k, v) :: rest, key => if k = key then some v else pyDictGet rest key

/-- Models Python `bytes.decode()` on raw byte values: each byte becomes the
character with that code point. -/
def decodeBytes (bs : List Nat) : String :=
  String.mk (bs.map Char.ofNat)

/-- Embeds `LDAP.__getSAMAccountName`: walk the response in order, skip every
element whose type is not "searchResEntry", and for each remaining entry
append `entry["raw_attributes"]["sAMAccountName"][0].decode()`.  A missing
attribute key (KeyError) or an empty value list (IndexError) is an uncaught
exception, modelled as `none`. -/
def getSAMAccountName : List LdapEntry → Option (List String)
  | [] => some []
  | e :: rest =>
    if e.type = "searchResEntry" then
      match pyDictGet e.raw_attributes "sAMAccountName" with
      | none => none
      | some [] => none
      | some (bs :: _) =>
        match getSAMAccountName rest with
        | none => none
        | some l => some (decodeBytes bs :: l)
    else
      getSAMAccountName rest

/-- The five naming-context fields assigned by `LDAP.getNamingContexts`,
plus the raw attribute value list they were taken from. -/
structure NamingContexts where
  namingContexts : List String
  defaultNamingContext : String
  configurationNamingContext : String
  schemaNamingContext : String
  domainDnsZonesNamingContext : String
  forestDnsZonesNamingContext : String
deriving DecidableEq, Repr

/-- Outcome of `LDAP.getNamingContexts`: the populated fields, an
`IndexError` (empty response, or fewer than five attribute values), a
`KeyError` (attribute absent), or termination inside the underlying search
(fatal exit or exhausted fuel). -/
inductive NCOutcome
  | ok (ncs : NamingContexts)
  | indexError
  | keyError
  | terminated
deriving DecidableEq, Repr

/-- Embeds `LDAP.getNamingContexts`: a base-scope search on the empty DN for
attribute `namingContexts`, then positional assignment of the first five
values of `response[0]["attributes"]["namingContexts"]`.  Indexing an empty
response or a value list shorter than five raises `IndexError`. -/
def getNamingContexts (env : AuthEnv) (c : Credentials)
    (server : SearchRequest → PageResponse) (fuel : Nat) :
    NCOutcome × List Ev :=
  let res := search env c server fuel "" "(objectClass=*)" .base ["namingContexts"] none
  (match res.1 with
   | none => .terminated
   | some [] => .indexError
   | some (e :: _) =>
     match pyDictGet e.attributes "namingContexts" with
     | none => .keyError
     | some (v0 :: v1 :: v2 :: v3 :: v4 :: rest) =>
       .ok ⟨v0 :: v1 :: v2 :: v3 :: v4 :: rest, v0, v1, v2, v3, v4⟩
     | some _ => .indexError,
   res.2)

/-- Outcome of `LDAP.__checkAuthentication`: debug success, the
invalid-credentials fatal exit of its `except IndexError` handler, a fatal
exit or exception that happened earlier (inside authentication or the
search), or a `KeyError` its handler does not catch. -/
inductive CheckAuthOutcome
  | success (ncs : NamingContexts)
  | invalidCredentialsExit
  | terminatedEarlier
  | uncaughtKeyError
deriving DecidableEq, Repr

/-- Embeds `LDAP.__checkAuthentication`: authenticate once, then run
`getNamingContexts` inside `try ... except IndexError`, turning an
`IndexError` into the "Invalid credentials !" fatal exit.  Only `IndexError`
is caught. -/
def checkAuthentication (env : AuthEnv) (c : Credentials)
    (server : SearchRequest → PageResponse) (fuel : Nat) : CheckAuthOutcome :=
  match Authentication env c with
  | .bound _ =>
    match (getNamingContexts env c server fuel).1 with
    | .ok ncs => .success ncs
    | .indexError => .invalidCredentialsExit
    | .keyError => .uncaughtKeyError
    | .terminated => .terminatedEarlier
  | _ => .terminatedEarlier

/-- Modelled from the spec: `sAMAccountType.SAM_NORMAL_USER_ACCOUNT` from
`DCSync/structures/sAMAccountType.py`, which is not among the provided
sources; the spec gives the normal-user-account code 805306368. -/
def SAM_NORMAL_USER_ACCOUNT : Nat := 805306368

/-- Modelled from the spec: `sAMAccountType.SAM_MACHINE_ACCOUNT` from
`DCSync/structures/sAMAccountType.py`, which is not among the provided
sources; the spec gives the machine-account code 805306369. -/
def SAM_MACHINE_ACCOUNT : Nat := 805306369

/-- The filter string `"(|(sAMAccountType=%d)(sAMAccountType=%d))"` built by
`LDAP.getAllUsers`. -/
def samFilter : String :=
  "(|(sAMAccountType=" ++ toString SAM_NORMAL_USER_ACCOUNT ++
  ")(sAMAccountType=" ++ toString SAM_MACHINE_ACCOUNT ++ "))"

/-- Embeds `LDAP.getAllUsers`: a subtree search under the discovered default
naming context with the account-type filter, requesting `sAMAccountName`,
post-processed by `__getSAMAccountName`. -/
def getAllUsers (env : AuthEnv) (c : Credentials)
    (server : SearchRequest → PageResponse) (fuel : Nat)
    (defaultNamingContext : String) : Option (List String) × List Ev :=
  let res := search env c server fuel defaultNamingContext samFilter .subtree
    ["sAMAccountName"] none
  (match res.1 with
   | none => none
   | some resp => getSAMAccountName resp,
   res.2)

/-- Embeds `Target.__init__(remote, port, method_port)`: the TLS flags keep
their class-attribute default `None`. -/
def Target.init (remote : String) (port method_port : Option Nat) : Target :=
  { remote := remote, port := port, method_port := method_port }

/-- Fixture network for the C1 scenario: both TLS candidates fail at the
handshake level, plaintext succeeds. -/
def netPlainOnly : Candidate → BindOutcome
  | .plain _ => .ok
  | .tls _ _ => .socketOpenError

/-- Fixture target with no caller-supplied port. -/
def tNoPort : Target := Target.init "dc01" none none

/-- C1: for a target without a caller-supplied port, negotiation attempts
exactly the candidates TLS1.2 on 636, TLS1.1 on 636, plaintext on 389 in
that fixed order, stopping at the first successful candidate (first and
last two conjuncts); when both TLS candidates fail at the handshake level
and the plaintext candidate succeeds, the resolved port is 389 and both
TLS-version flags are left unset, hence falsy, so the derived TLS predicate
is false. -/
theorem C1_transport_fallback (net : Candidate → BindOutcome) (t : Target)
    (hmp : t.method_port = none)
    (h1 : net (.tls .v1_2 636) = .socketOpenError)
    (h2 : net (.tls .v1 636) = .socketOpenError)
    (h3 : net (.plain 389) = .ok) :
    (getPort net t).2 = [.tls .v1_2 636, .tls .v1 636, .plain 389] ∧
    (getPort net t).1 =
      some { t with method_port := some 389, tlsv1_2 := none, tlsv1 := none } ∧
    (∀ t', (getPort net t).1 = some t' →
      t'.method_port = some 389 ∧ t'.tlsv1_2 = none ∧ t'.tlsv1 = none ∧
      t'.use_tls = false) ∧
    (∀ net2, net2 (.tls .v1_2 636) ≠ .socketOpenError →
      (getPort net2 t).2 = [.tls .v1_2 636]) ∧
    (∀ net2, net2 (.tls .v1_2 636) = .socketOpenError →
      net2 (.tls .v1 636) ≠ .socketOpenError →
      (getPort net2 t).2 = [.tls .v1_2 636, .tls .v1 636]) := by
  refine ⟨?_, ?_, ?_, ?_, ?_⟩
  · simp [getPort, tryLDAPS, tryLDAP, optNatTruthy, pyOr, hmp, h1, h2, h3]
  · simp [getPort, tryLDAPS, tryLDAP, optNatTruthy, pyOr, hmp, h1, h2, h3]
  · intro t' ht'
    simp [getPort, tryLDAPS, tryLDAP, optNatTruthy, pyOr, hmp, h1, h2, h3] at ht'
    subst ht'
    simp [Target.use_tls]
  · intro net2 hne
    cases hc : net2 (.tls .v1_2 636) with
    | socketOpenError => exact absurd hc hne
    | ok => simp [getPort, tryLDAPS, optNatTruthy, pyOr, hmp, hc]
    | socketReceiveError => simp [getPort, tryLDAPS, optNatTruthy, pyOr, hmp, hc]
  · intro net2 hc1 hne
    cases hc : net2 (.tls .v1 636) with
    | socketOpenError => exact absurd hc hne
    | ok => simp [getPort, tryLDAPS, optNatTruthy, pyOr, hmp, hc1, hc]
    | socketReceiveError => simp [getPort, tryLDAPS, optNatTruthy, pyOr, hmp, hc1, hc]

/-- Witness for C1 at a concrete network and target. -/
theorem C1_transport_fallback_witness :
    (getPort netPlainOnly tNoPort).2 =
      [.tls .v1_2 636, .tls .v1 636, .plain 389] ∧
    (getPort netPlainOnly tNoPort).1 =
      some { tNoPort with
               method_port := some 389, tlsv1_2 := none, tlsv1 := none } :=
  ⟨(C1_transport_fallback netPlainOnly tNoPort rfl rfl rfl rfl).1,
   (C1_transport_fallback netPlainOnly tNoPort rfl rfl rfl rfl).2.1⟩

/-- C4: during negotiation, a socket-receive failure after the connection
was established is classified as a successful candidate for every candidate
kind: `tryLDAPS` records the port and marks the TLS version negotiated,
`tryLDAP` records the port, and at the negotiation level a receive failure
on the very first candidate ends probing there with TLS1.2 marked. -/
theorem C4_receive_failure_is_success (net : Candidate → BindOutcome)
    (proto : TlsProto) (port : Option Nat)
    (htls : net (.tls proto (pyOr port 636)) = .socketReceiveError)
    (hplain : net (.plain (pyOr port 389)) = .socketReceiveError) :
    tryLDAPS net proto port =
      ((some (pyOr port 636), some true), .tls proto (pyOr port 636)) ∧
    tryLDAP net port = (some (pyOr port 389), .plain (pyOr port 389)) ∧
    (∀ t : Target, t.method_port = none →
      net (.tls .v1_2 636) = .socketReceiveError →
      getPort net t =
        (some { t with method_port := some 636, tlsv1_2 := some true },
         [.tls .v1_2 636])) := by
  refine ⟨?_, ?_, ?_⟩
  · simp [tryLDAPS, htls]
  · simp [tryLDAP, hplain]
  · intro t hmp hc
    simp [getPort, tryLDAPS, optNatTruthy, pyOr, hmp, hc]

/-- Fixture network where every bind attempt fails at the receive level. -/
def netAllReceiveFail : Candidate → BindOutcome := fun _ => .socketReceiveError

/-- Witness for C4 at a concrete network. -/
theorem C4_receive_failure_is_success_witness :
    tryLDAPS netAllReceiveFail .v1_2 none =
      ((some 636, some true), .tls .v1_2 636) ∧
    tryLDAP netAllReceiveFail none = (some 389, .plain 389) ∧
    getPort netAllReceiveFail tNoPort =
      (some { tNoPort with method_port := some 636, tlsv1_2 := some true },
       [.tls .v1_2 636]) :=
  ⟨(C4_receive_failure_is_success netAllReceiveFail .v1_2 none rfl rfl).1,
   (C4_receive_failure_is_success netAllReceiveFail .v1_2 none rfl rfl).2.1,
   (C4_receive_failure_is_success netAllReceiveFail .v1_2 none rfl rfl).2.2
     tNoPort rfl rfl⟩

/-- C5: for a target whose caller-supplied port is truthy, negotiation
probes nothing and leaves the target unchanged; since `__init__` leaves
both TLS flags at their `None` default, they stay unset and the derived TLS
predicate is false, so subsequent connections are plaintext on the caller's
port. -/
theorem C5_explicit_port_skips_negotiation (net : Candidate → BindOutcome)
    (remote : String) (port : Option Nat) (p : Nat) (hp : p ≠ 0) :
    getPort net (Target.init remote port (some p)) =
      (some (Target.init remote port (some p)), []) ∧
    (Target.init remote port (some p)).method_port = some p ∧
    (Target.init remote port (some p)).tlsv1_2 = none ∧
    (Target.init remote port (some p)).tlsv1 = none ∧
    (Target.init remote port (some p)).use_tls = false := by
  refine ⟨?_, rfl, rfl, rfl, rfl⟩
  simp [getPort, optNatTruthy, Target.init, hp]

/-- Witness for C5 at a concrete network, host and port. -/
theorem C5_explicit_port_skips_negotiation_witness :
    getPort netPlainOnly (Target.init "dc01" (some 3268) (some 3268)) =
      (some (Target.init "dc01" (some 3268) (some 3268)), []) ∧
    (Target.init "dc01" (some 3268) (some 3268)).use_tls = false :=
  ⟨(C5_explicit_port_skips_negotiation netPlainOnly "dc01" (some 3268) 3268
      (by decide)).1,
   (C5_explicit_port_skips_negotiation netPlainOnly "dc01" (some 3268) 3268
      (by decide)).2.2.2.2⟩

/-- Fixture credentials selecting the default NTLM mechanism. -/
def credsNtlm : Credentials := ⟨"CORP", "alice", false, false⟩

/-- Fixture credentials selecting simple bind. -/
def credsSimple : Credentials := ⟨"CORP", "alice", false, true⟩

/-- Fixture credentials selecting Kerberos. -/
def credsKerberos : Credentials := ⟨"CORP", "alice", true, false⟩

/-- Fixture bind environment: every mechanism's bind completes with the
invalid-credentials description. -/
def envInvalidCreds : AuthEnv := ⟨fun _ => .ok ⟨0, "invalidCredentials"⟩⟩

/-- Fixture server returning an empty page with no paged-results control. -/
def srvEmpty : SearchRequest → PageResponse := fun _ => ⟨[], none⟩

/-- C3: for every mechanism, if the bind completes (for Kerberos, with a
zero SASL result code, since a non-zero code raises before the check) and
the result description equals "invalidCredentials", authentication ends in
the fatal InvalidCredentials exit, and any search run under this
environment issues no search request at all. -/
theorem C3_invalid_credentials_fatal (env : AuthEnv) (c : Credentials)
    (r : BindResult)
    (hbind : env.bind (selectedMechanism c) = .ok r)
    (hdesc : r.description = "invalidCredentials")
    (hk : selectedMechanism c = .kerberos → r.resultCode = 0) :
    Authentication env c = .fatalInvalidCredentials ∧
    fatalMessage (Authentication env c) = some invalidCredentialsMessage ∧
    (∀ server fuel dn filt scope attrs ck,
      ((search env c server fuel dn filt scope attrs ck).2.all
        (fun e => !e.isSearchReq)) = true ∧
      (search env c server fuel dn filt scope attrs ck).1 = none) := by
  have hA : Authentication env c = .fatalInvalidCredentials := by
    cases hm : selectedMechanism c with
    | kerberos =>
      rw [hm] at hbind
      simp [Authentication, hm, hbind, hk hm, hdesc]
    | simpleBind =>
      rw [hm] at hbind
      simp [Authentication, hm, hbind, hdesc]
    | ntlm =>
      rw [hm] at hbind
      simp [Authentication, hm, hbind, hdesc]
  refine ⟨hA, by rw [hA]; rfl, ?_⟩
  intro server fuel dn filt scope attrs ck
  cases fuel with
  | zero => simp [search]
  | succ n => simp [search, hA, Ev.isSearchReq]

/-- Witness for C3 at a concrete environment and NTLM credentials. -/
theorem C3_invalid_credentials_fatal_witness :
    Authentication envInvalidCreds credsNtlm = .fatalInvalidCredentials ∧
    ((search envInvalidCreds credsNtlm srvEmpty 3 "dc" "(objectClass=*)"
        .base [] none).2.all (fun e => !e.isSearchReq)) = true :=
  ⟨(C3_invalid_credentials_fatal envInvalidCreds credsNtlm
      ⟨0, "invalidCredentials"⟩ rfl rfl (fun _ => rfl)).1,
   ((C3_invalid_credentials_fatal envInvalidCreds credsNtlm
      ⟨0, "invalidCredentials"⟩ rfl rfl (fun _ => rfl)).2.2 srvEmpty 3 "dc"
      "(objectClass=*)" .base [] none).1⟩

/-- Fixture bind environment: the NTLM bind raises a socket-receive error,
the other mechanisms succeed. -/
def envNtlmReject : AuthEnv :=
  ⟨fun m => match m with
    | .ntlm => .error .socketReceiveError
    | _ => .ok ⟨0, "success"⟩⟩

/-- C7: an NTLM bind failing at the socket-receive level ends in the
distinct fatal MechanismRejected exit whose message recommends the
simple-bind option, not in the InvalidCredentials exit. -/
theorem C7_ntlm_socket_rejection (env : AuthEnv) (c : Credentials)
    (hm : selectedMechanism c = .ntlm)
    (hbind : env.bind .ntlm = .error .socketReceiveError) :
    Authentication env c = .fatalMechanismRejected ∧
    Authentication env c ≠ .fatalInvalidCredentials ∧
    fatalMessage (Authentication env c) = some mechanismRejectedMessage ∧
    mechanismRejectedMessage =
      "Can't connect using NTLM, try with -simple-bind option" ∧
    mechanismRejectedMessage ≠ invalidCredentialsMessage := by
  have hA : Authentication env c = .fatalMechanismRejected := by
    simp [Authentication, hm, hbind]
  refine ⟨hA, by rw [hA]; simp, by rw [hA]; rfl, rfl, by decide⟩

/-- Witness for C7 at a concrete environment and NTLM credentials. -/
theorem C7_ntlm_socket_rejection_witness :
    Authentication envNtlmReject credsNtlm = .fatalMechanismRejected ∧
    Authentication envNtlmReject credsNtlm ≠ .fatalInvalidCredentials :=
  ⟨(C7_ntlm_socket_rejection envNtlmReject credsNtlm rfl rfl).1,
   (C7_ntlm_socket_rejection envNtlmReject credsNtlm rfl rfl).2.1⟩

/-- Fixture bind environment: the simple bind raises a socket-receive
error, the other mechanisms succeed. -/
def envSimpleReject : AuthEnv :=
  ⟨fun m => match m with
    | .simpleBind => .error .socketReceiveError
    | _ => .ok ⟨0, "success"⟩⟩

/-- C10: only the NTLM branch catches socket-receive failures: under simple
bind such a failure maps to no defined fatal outcome (no fatal message,
neither MechanismRejected nor InvalidCredentials) and the exception escapes
the authenticator uncaught; the Kerberos branch likewise lets it escape,
while the NTLM branch maps it to MechanismRejected. -/
theorem C10_simple_bind_uncaught (env : AuthEnv) (c : Credentials)
    (hm : selectedMechanism c = .simpleBind)
    (hbind : env.bind .simpleBind = .error .socketReceiveError) :
    Authentication env c = .uncaughtExc .socketReceiveError ∧
    fatalMessage (Authentication env c) = none ∧
    Authentication env c ≠ .fatalMechanismRejected ∧
    Authentication env c ≠ .fatalInvalidCredentials ∧
    (∀ env2 c2, selectedMechanism c2 = .kerberos →
      env2.bind .kerberos = .error (.socketReceiveError) →
      Authentication env2 c2 = .uncaughtExc .socketReceiveError) ∧
    (∀ env2 c2, selectedMechanism c2 = .ntlm →
      env2.bind .ntlm = .error (.socketReceiveError) →
      Authentication env2 c2 = .fatalMechanismRejected) := by
  have hA : Authentication env c = .uncaughtExc .socketReceiveError := by
    simp [Authentication, hm, hbind]
  refine ⟨hA, by rw [hA]; rfl, by rw [hA]; simp, by rw [hA]; simp, ?_, ?_⟩
  · intro env2 c2 hm2 hb2
    simp [Authentication, hm2, hb2]
  · intro env2 c2 hm2 hb2
    simp [Authentication, hm2, hb2]

/-- Witness for C10 at a concrete environment and simple-bind
credentials. -/
theorem C10_simple_bind_uncaught_witness :
    Authentication envSimpleReject credsSimple =
      .uncaughtExc .socketReceiveError ∧
    fatalMessage (Authentication envSimpleReject credsSimple) = none :=
  ⟨(C10_simple_bind_uncaught envSimpleReject credsSimple rfl rfl).1,
   (C10_simple_bind_uncaught envSimpleReject credsSimple rfl rfl).2.1⟩

/-- The search request `LDAP.search` issues for given parameters: fixed
page size 5000 and the fixed security-descriptor control. -/
def mkReq (dn filt : String) (scope : Scope) (attrs : List String)
    (ck : Option Cookie) : SearchRequest :=
  ⟨dn, filt, scope, attrs, [sdControl], 5000, ck⟩

/-- Fixture bind environment where every mechanism binds successfully. -/
def envOk : AuthEnv := ⟨fun _ => .ok ⟨0, "success"⟩⟩

/-- Fixture directory entry carrying only a decoded name attribute. -/
def entryNamed (s : String) : LdapEntry :=
  ⟨"searchResEntry", [], [("name", [s])]⟩

/-- Fixture two-page server: the first page returns three entries and
cookie bytes "C1" (67, 49); presenting that cookie returns two more entries
and no paged-results control. -/
def srvTwoPages : SearchRequest → PageResponse := fun req =>
  match req.paged_cookie with
  | none => ⟨[entryNamed "a", entryNamed "b", entryNamed "c"], some [67, 49]⟩
  | some [67, 49] => ⟨[entryNamed "d", entryNamed "e"], none⟩
  | some _ => ⟨[], none⟩

/-- C2: when a page's result carries a truthy continuation cookie, the
client recurses with the same base, filter, scope and attributes plus that
cookie and appends the continuation's entries strictly after the current
page's (first conjunct); a missing or empty cookie stops the recursion and
returns the accumulated entries (second conjunct); and on the mocked
two-page server (3 entries + cookie "C1", then 2 entries + no cookie) the
combined result is exactly the 5 entries in page order (third conjunct). -/
theorem C2_paged_search_ordered (env : AuthEnv) (c : Credentials)
    (r : BindResult) (hA : Authentication env c = .bound r)
    (server : SearchRequest → PageResponse) (fuel : Nat) (dn filt : String)
    (scope : Scope) (attrs : List String) (ck : Option Cookie) :
    (∀ rest evs,
      cookieTruthy (server (mkReq dn filt scope attrs ck)).pagedCookie = true →
      search env c server fuel dn filt scope attrs
        (server (mkReq dn filt scope attrs ck)).pagedCookie = (some rest, evs) →
      search env c server (fuel + 1) dn filt scope attrs ck =
        (some ((server (mkReq dn filt scope attrs ck)).response ++ rest),
         .auth :: .searchReq (mkReq dn filt scope attrs ck) :: evs)) ∧
    (cookieTruthy (server (mkReq dn filt scope attrs ck)).pagedCookie = false →
      search env c server (fuel + 1) dn filt scope attrs ck =
        (some (server (mkReq dn filt scope attrs ck)).response,
         [.auth, .searchReq (mkReq dn filt scope attrs ck)])) ∧
    (search env c srvTwoPages (fuel + 2) dn filt scope attrs none).1 =
      some [entryNamed "a", entryNamed "b", entryNamed "c",
            entryNamed "d", entryNamed "e"] := by
  refine ⟨?_, ?_, ?_⟩
  · intro rest evs hc hrec
    simp [search, hA, mkReq] at hc hrec ⊢
    simp [hc, hrec]
  · intro hc
    simp [search, hA, mkReq] at hc ⊢
    simp [hc]
  · simp [search, hA, srvTwoPages, mkReq, cookieTruthy]

/-- Witness for C2: the mocked two-page run yields the five entries in page
order. -/
theorem C2_paged_search_ordered_witness :
    (search envOk credsNtlm srvTwoPages 5 "dc" "(objectClass=*)" .subtree
      ["*"] none).1 =
      some [entryNamed "a", entryNamed "b", entryNamed "c",
            entryNamed "d", entryNamed "e"] :=
  (C2_paged_search_ordered envOk credsNtlm ⟨0, "success"⟩ rfl srvTwoPages 3
    "dc" "(objectClass=*)" .subtree ["*"] none).2.2

/-- Checks that a search event trace is a sequence of blocks each made of
one fresh authentication followed by exactly one search request whose base,
filter, scope and attributes are the supplied ones and whose page size is
the fixed 5000 with the fixed security-descriptor control as sole control;
a trailing lone authentication (a fatal bind attempt) is also allowed. -/
def wellFormedTrace (dn filt : String) (scope : Scope)
    (attrs : List String) : List Ev → Bool
  | [] => true
  | [.auth] => true
  | .auth :: .searchReq r :: rest =>
    r.search_base == dn && r.search_filter == filt &&
    r.search_scope == scope && r.attributes == attrs &&
    r.paged_size == 5000 && r.controls == [sdControl] &&
    wellFormedTrace dn filt scope attrs rest
  | _ => false

/-- Every trace produced by `search` is well formed: authentications and
requests strictly alternate, one request per authentication, and every
request carries the supplied parameters, page size 5000 and the fixed
control. -/
theorem search_trace_wellFormed (env : AuthEnv) (c : Credentials)
    (server : SearchRequest → PageResponse) :
    ∀ (fuel : Nat) (dn filt : String) (scope : Scope) (attrs : List String)
      (ck : Option Cookie),
    wellFormedTrace dn filt scope attrs
      (search env c server fuel dn filt scope attrs ck).2 = true := by
  intro fuel
  induction fuel with
  | zero =>
    intro dn filt scope attrs ck
    simp [search, wellFormedTrace]
  | succ n ih =>
    intro dn filt scope attrs ck
    cases hA : Authentication env c with
    | bound r =>
      by_cases hc : cookieTruthy
        (server (mkReq dn filt scope attrs ck)).pagedCookie = true
      · rcases hrec : search env c server n dn filt scope attrs
          ((server (mkReq dn filt scope attrs ck)).pagedCookie) with ⟨o, evs⟩
        have hwf := ih dn filt scope attrs
          ((server (mkReq dn filt scope attrs ck)).pagedCookie)
        rw [hrec] at hwf
        simp only [mkReq] at hc
        cases o with
        | some rest =>
          simp [search, hA, mkReq] at hrec ⊢
          simp [hc, hrec, wellFormedTrace, hwf]
        | none =>
          simp [search, hA, mkReq] at hrec ⊢
          simp [hc, hrec, wellFormedTrace, hwf]
      · simp [search, hA, mkReq] at hc ⊢
        simp [hc, wellFormedTrace]
    | fatalInvalidCredentials =>
      simp [search, hA, wellFormedTrace]
    | fatalMechanismRejected =>
      simp [search, hA, wellFormedTrace]
    | kerberosBindFailure resp =>
      simp [search, hA, wellFormedTrace]
    | uncaughtExc e =>
      simp [search, hA, wellFormedTrace]

/-- When authentication binds, a search run with positive fuel opens its
trace with one authentication followed by the one request built from the
supplied parameters and cookie. -/
theorem search_trace_head (env : AuthEnv) (c : Credentials)
    (server : SearchRequest → PageResponse) (n : Nat) (dn filt : String)
    (scope : Scope) (attrs : List String) (ck : Option Cookie)
    (r : BindResult) (hA : Authentication env c = .bound r) :
    (search env c server (n + 1) dn filt scope attrs ck).2.head? =
      some .auth ∧
    (search env c server (n + 1) dn filt scope attrs ck).2.tail.head? =
      some (.searchReq (mkReq dn filt scope attrs ck)) := by
  by_cases hc : cookieTruthy
    (server (mkReq dn filt scope attrs ck)).pagedCookie = true
  · rcases hrec : search env c server n dn filt scope attrs
      ((server (mkReq dn filt scope attrs ck)).pagedCookie) with ⟨o, evs⟩
    simp only [mkReq] at hc
    cases o with
    | some rest =>
      simp [search, hA, mkReq] at hrec ⊢
      simp [hc, hrec]
    | none =>
      simp [search, hA, mkReq] at hrec ⊢
      simp [hc, hrec]
  · simp [search, hA, mkReq] at hc ⊢
    simp [hc]

/-- C6: every `search` invocation, recursive continuation pages included,
first authenticates afresh and then issues exactly one request carrying
page size 5000, the supplied cookie, and the fixed security-descriptor
control (OID 1.2.840.113556.1.4.801, value the ASN.1 SEQUENCE over INTEGER
7 = owner 1 + group 2 + DACL 4): the whole event trace consists of such
blocks, and when authentication binds the trace opens with one
authentication followed by one request carrying the supplied cookie. -/
theorem C6_fresh_auth_and_fixed_request (env : AuthEnv) (c : Credentials)
    (server : SearchRequest → PageResponse) (fuel : Nat) (dn filt : String)
    (scope : Scope) (attrs : List String) (ck : Option Cookie) :
    wellFormedTrace dn filt scope attrs
      (search env c server fuel dn filt scope attrs ck).2 = true ∧
    (∀ r, Authentication env c = .bound r → fuel ≠ 0 →
      (search env c server fuel dn filt scope attrs ck).2.head? =
        some .auth ∧
      (search env c server fuel dn filt scope attrs ck).2.tail.head? =
        some (.searchReq (mkReq dn filt scope attrs ck)) ∧
      (mkReq dn filt scope attrs ck).paged_size = 5000 ∧
      (mkReq dn filt scope attrs ck).paged_cookie = ck ∧
      (mkReq dn filt scope attrs ck).controls = [sdControl]) ∧
    sdControl = ⟨"1.2.840.113556.1.4.801", true, [48, 3, 2, 1, 7]⟩ ∧
    sdControlValue = [48, 3, 2, 1, 1 + 2 + 4] := by
  refine ⟨search_trace_wellFormed env c server fuel dn filt scope attrs ck,
    ?_, rfl, by decide⟩
  intro r hA hf
  cases fuel with
  | zero => exact absurd rfl hf
  | succ n =>
    obtain ⟨h1, h2⟩ :=
      search_trace_head env c server n dn filt scope attrs ck r hA
    exact ⟨h1, h2, rfl, rfl, rfl⟩

/-- Witness for C6 at a concrete environment, server and parameters. -/
theorem C6_fresh_auth_and_fixed_request_witness :
    wellFormedTrace "dc" "(objectClass=*)" .subtree ["*"]
      (search envOk credsNtlm srvTwoPages 5 "dc" "(objectClass=*)" .subtree
        ["*"] none).2 = true ∧
    (search envOk credsNtlm srvTwoPages 5 "dc" "(objectClass=*)" .subtree
      ["*"] none).2.head? = some .auth :=
  ⟨(C6_fresh_auth_and_fixed_request envOk credsNtlm srvTwoPages 5 "dc"
      "(objectClass=*)" .subtree ["*"] none).1,
   ((C6_fresh_auth_and_fixed_request envOk credsNtlm srvTwoPages 5 "dc"
      "(objectClass=*)" .subtree ["*"] none).2.1 ⟨0, "success"⟩ rfl
      (by decide)).1⟩

/-- Fixture server whose single entry carries the given `namingContexts`
attribute values and no paged-results control. -/
def srvNamingContexts (vals : List String) : SearchRequest → PageResponse :=
  fun _ => ⟨[⟨"searchResEntry", [], [("namingContexts", vals)]⟩], none⟩

/-- C8: naming-context discovery issues a base-scope search on the empty DN
for attribute namingContexts (first conjunct); the first five values of the
single resulting entry are assigned positionally as default, configuration,
schema, domain-DNS-zones and forest-DNS-zones contexts (second conjunct);
an empty response, or fewer than five values, raises the IndexError that
`__checkAuthentication` turns into the fatal invalid-credentials exit
(third and fourth conjuncts). -/
theorem C8_naming_contexts (env : AuthEnv) (c : Credentials)
    (r : BindResult) (hA : Authentication env c = .bound r) (fuel : Nat) :
    (∀ server, (getNamingContexts env c server (fuel + 1)).2.head? =
        some .auth ∧
      (getNamingContexts env c server (fuel + 1)).2.tail.head? =
        some (.searchReq
          (mkReq "" "(objectClass=*)" .base ["namingContexts"] none))) ∧
    (∀ v0 v1 v2 v3 v4 rest,
      (getNamingContexts env c
          (srvNamingContexts (v0 :: v1 :: v2 :: v3 :: v4 :: rest))
          (fuel + 1)).1 =
        .ok ⟨v0 :: v1 :: v2 :: v3 :: v4 :: rest, v0, v1, v2, v3, v4⟩) ∧
    ((getNamingContexts env c srvEmpty (fuel + 1)).1 = .indexError ∧
      checkAuthentication env c srvEmpty (fuel + 1) =
        .invalidCredentialsExit) ∧
    (∀ vals, vals.length < 5 →
      (getNamingContexts env c (srvNamingContexts vals) (fuel + 1)).1 =
        .indexError ∧
      checkAuthentication env c (srvNamingContexts vals) (fuel + 1) =
        .invalidCredentialsExit) := by
  have key : ∀ server2,
      (getNamingContexts env c server2 (fuel + 1)).1 = .indexError →
      checkAuthentication env c server2 (fuel + 1) =
        .invalidCredentialsExit := by
    intro server2 hidx
    simp [checkAuthentication, hA, hidx]
  refine ⟨?_, ?_, ?_, ?_⟩
  · intro server
    have h := search_trace_head env c server fuel "" "(objectClass=*)" .base
      ["namingContexts"] none r hA
    simpa [getNamingContexts] using h
  · intro v0 v1 v2 v3 v4 rest
    simp [getNamingContexts, search, hA, srvNamingContexts, cookieTruthy,
      pyDictGet]
  · have hidx : (getNamingContexts env c srvEmpty (fuel + 1)).1 =
        .indexError := by
      simp [getNamingContexts, search, hA, srvEmpty, cookieTruthy]
    exact ⟨hidx, key _ hidx⟩
  · intro vals hlen
    have hidx : (getNamingContexts env c (srvNamingContexts vals)
        (fuel + 1)).1 = .indexError := by
      rcases vals with _ | ⟨v0, _ | ⟨v1, _ | ⟨v2, _ | ⟨v3, _ | ⟨v4, rest⟩⟩⟩⟩⟩
      · simp [getNamingContexts, search, hA, srvNamingContexts, cookieTruthy,
          pyDictGet]
      · simp [getNamingContexts, search, hA, srvNamingContexts, cookieTruthy,
          pyDictGet]
      · simp [getNamingContexts, search, hA, srvNamingContexts, cookieTruthy,
          pyDictGet]
      · simp [getNamingContexts, search, hA, srvNamingContexts, cookieTruthy,
          pyDictGet]
      · simp [getNamingContexts, search, hA, srvNamingContexts, cookieTruthy,
          pyDictGet]
      · exfalso
        simp [List.length_cons] at hlen
        omega
    exact ⟨hidx, key _ hidx⟩

/-- Witness for C8 at a concrete environment and servers. -/
theorem C8_naming_contexts_witness :
    (getNamingContexts envOk credsNtlm
        (srvNamingContexts ["dc=a", "dc=b", "dc=c", "dc=d", "dc=e"]) 2).1 =
      .ok ⟨["dc=a", "dc=b", "dc=c", "dc=d", "dc=e"],
           "dc=a", "dc=b", "dc=c", "dc=d", "dc=e"⟩ ∧
    checkAuthentication envOk credsNtlm srvEmpty 2 =
      .invalidCredentialsExit ∧
    checkAuthentication envOk credsNtlm (srvNamingContexts ["dc=a"]) 2 =
      .invalidCredentialsExit :=
  ⟨(C8_naming_contexts envOk credsNtlm ⟨0, "success"⟩ rfl 1).2.1
      "dc=a" "dc=b" "dc=c" "dc=d" "dc=e" [],
   (C8_naming_contexts envOk credsNtlm ⟨0, "success"⟩ rfl 1).2.2.1.2,
   ((C8_naming_contexts envOk credsNtlm ⟨0, "success"⟩ rfl 1).2.2.2
      ["dc=a"] (by decide)).2⟩

/-- Fixture directory entry with a raw `sAMAccountName` byte value. -/
def entryUser (bytes : List Nat) : LdapEntry :=
  ⟨"searchResEntry", [("sAMAccountName", [bytes])], []⟩

/-- Fixture protocol marker that is not a directory entry. -/
def entryDone : LdapEntry := ⟨"searchResDone", [], []⟩

/-- Fixture server returning two real entries and one protocol marker, no
paged-results control. -/
def srvUsers : SearchRequest → PageResponse := fun _ =>
  ⟨[entryUser [65, 108], entryUser [66, 111], entryDone], none⟩

/-- C9: account enumeration issues a subtree search under the supplied
default naming context with the sAMAccountType filter over 805306368 and
805306369, requesting attribute sAMAccountName (first two conjuncts); its
post-processing returns, for exactly the response elements of type
"searchResEntry", the first raw sAMAccountName byte value decoded as a
string, in server order (third conjunct, for every response in which that
value exists); concretely, a response of two real entries and one protocol
marker yields the two decoded names in order (fourth conjunct). -/
theorem C9_account_enumeration (env : AuthEnv) (c : Credentials)
    (r : BindResult) (hA : Authentication env c = .bound r) (fuel : Nat)
    (dnc : String) :
    samFilter = "(|(sAMAccountType=805306368)(sAMAccountType=805306369))" ∧
    (∀ server, (getAllUsers env c server (fuel + 1) dnc).2.head? =
        some .auth ∧
      (getAllUsers env c server (fuel + 1) dnc).2.tail.head? =
        some (.searchReq
          (mkReq dnc samFilter .subtree ["sAMAccountName"] none))) ∧
    (∀ resp : List LdapEntry,
      (∀ e ∈ resp, e.type = "searchResEntry" →
        (pyDictGet e.raw_attributes "sAMAccountName").getD [] ≠ []) →
      getSAMAccountName resp =
        some ((resp.filter (fun e => e.type == "searchResEntry")).map
          (fun e => decodeBytes
            (((pyDictGet e.raw_attributes "sAMAccountName").getD
              []).headD [])))) ∧
    (getAllUsers env c srvUsers (fuel + 1) dnc).1 =
      some [decodeBytes [65, 108], decodeBytes [66, 111]] := by
  refine ⟨rfl, ?_, ?_, ?_⟩
  · intro server
    have h := search_trace_head env c server fuel dnc samFilter .subtree
      ["sAMAccountName"] none r hA
    simpa [getAllUsers] using h
  · intro resp
    induction resp with
    | nil => intro _; simp [getSAMAccountName]
    | cons e rest ih =>
      intro hall
      have hrest := fun e2 he2 => hall e2 (List.mem_cons_of_mem _ he2)
      by_cases ht : e.type = "searchResEntry"
      · have he := hall e (List.mem_cons_self _ _) ht
        cases hattr : pyDictGet e.raw_attributes "sAMAccountName" with
        | none => rw [hattr] at he; simp at he
        | some vs =>
          cases vs with
          | nil => rw [hattr] at he; simp at he
          | cons bs tl =>
            simp [getSAMAccountName, ht, hattr, ih hrest]
      · simp [getSAMAccountName, ht, ih hrest]
  · simp [getAllUsers, search, hA, srvUsers, cookieTruthy, getSAMAccountName,
      entryUser, entryDone, pyDictGet]

/-- Witness for C9 at a concrete environment and server: the two entry
names decode to "Al" and "Bo" in server order. -/
theorem C9_account_enumeration_witness :
    (getAllUsers envOk credsNtlm srvUsers 2 "DC=corp,DC=local").1 =
      some ["Al", "Bo"] := by
  have h := (C9_account_enumeration envOk credsNtlm ⟨0, "success"⟩ rfl 1
    "DC=corp,DC=local").2.2.2
  rw [h]
  decide

end DCSync
